import Mathlib

/-!
Shallow embedding of the StudentConnect CRUD backend (Flask + SQLAlchemy)
and proofs about its route handlers.

The relational rows become Lean structures, the database session becomes an
explicit record of lists of rows, and each route handler becomes a pure
function from the database state and the request data to the new state, an
HTTP status code and the response payload.  Python falsiness tests on
optional request fields are modelled explicitly, and the Python idiom
x or d on nullable integers is modelled by pyOrInt.  Primary keys are
modelled with explicit next-id counters; the SQLAlchemy identity map
guarantees one row object per primary key, so an update of the loaded row
is modelled as a map over the list guarded by the key.
-/

namespace SC

/-- Python truthiness of an optional string: None and the empty string are falsy. -/
def strFalsy : Option String → Bool
  | none => true
  | some s => s.isEmpty

/-- Python truthiness of an optional integer id: None and 0 are falsy. -/
def natFalsy : Option Nat → Bool
  | none => true
  | some n => n == 0

/-- The Python idiom x or d for a nullable integer column: None and 0 give d. -/
def pyOrInt : Option Int → Int → Int
  | none, d => d
  | some v, d => if v = 0 then d else v

/-! ### Rows of the schema (src/src/models/models.py) -/

structure Post where
  id : Nat
  title : String
  content : String
  post_type : String
  image_url : String
  likes_count : Int
  author_id : Nat
  community_id : Option Nat
  created_at : Nat
deriving DecidableEq, Repr

structure Like where
  id : Nat
  user_id : Nat
  post_id : Nat
deriving DecidableEq, Repr

/-- Database state for the post blueprint: post rows and like rows. -/
structure PostDB where
  posts : List Post
  likes : List Like
  next_post_id : Nat
  next_like_id : Nat
deriving DecidableEq, Repr

/-- JSON request body for creating or updating a post; absent keys are none. -/
structure PostData where
  title : Option String
  content : Option String
  post_type : Option String
  image_url : Option String
  community_id : Option Nat
deriving DecidableEq, Repr

/-- Post.query.get(post_id): first row with the given primary key. -/
def findPost (db : PostDB) (pid : Nat) : Option Post :=
  db.posts.find? (fun p => p.id == pid)

/-- Like.query.filter_by(user_id=..., post_id=...).first() -/
def findLike (db : PostDB) (uid pid : Nat) : Option Like :=
  db.likes.find? (fun l => l.user_id == uid && l.post_id == pid)

/-! ### Route handlers of src/src/routes/post.py -/

/-- GET /posts/<post_id>: get_or_404 then the row as a dict. -/
def get_post (db : PostDB) (pid : Nat) : Nat × Option Post :=
  match findPost db pid with
  | none => (404, none)
  | some p => (200, some p)

/-- POST /posts/: reject falsy content with 400, otherwise insert a row built
from the request body with the defaults of the model columns. -/
def create_post (db : PostDB) (uid : Nat) (d : PostData) (now : Nat) :
    PostDB × Nat × Option Post :=
  if strFalsy d.content then (db, 400, none)
  else
    let p : Post :=
      { id := db.next_post_id
        title := d.title.getD ""
        content := d.content.getD ""
        post_type := d.post_type.getD "general"
        image_url := d.image_url.getD ""
        likes_count := 0
        author_id := uid
        community_id := d.community_id
        created_at := now }
    ({ db with posts := db.posts ++ [p], next_post_id := db.next_post_id + 1 },
      201, some p)

/-- PUT /posts/<post_id>: owner check, then field-by-field update with
data.get falling back to the previous value. -/
def update_post (db : PostDB) (uid pid : Nat) (d : PostData) : PostDB × Nat :=
  match findPost db pid with
  | none => (db, 404)
  | some p =>
    if p.author_id ≠ uid then (db, 403)
    else
      let p2 : Post :=
        { p with
          title := d.title.getD p.title
          content := d.content.getD p.content
          post_type := d.post_type.getD p.post_type
          image_url := d.image_url.getD p.image_url }
      ({ db with posts := db.posts.map (fun q => if q.id == pid then p2 else q) },
        200)

/-- DELETE /posts/<post_id>: owner check, then delete the row (likes cascade). -/
def delete_post (db : PostDB) (uid pid : Nat) : PostDB × Nat :=
  match findPost db pid with
  | none => (db, 404)
  | some p =>
    if p.author_id ≠ uid then (db, 403)
    else
      ({ db with
          posts := db.posts.filter (fun q => q.id != pid)
          likes := db.likes.filter (fun l => l.post_id != pid) }, 204)

/-- POST /posts/<post_id>/like: if a like by this user already exists it is
deleted and likes_count is clamp-decremented, otherwise a like row is added
and likes_count incremented. -/
def like_post (db : PostDB) (uid pid : Nat) : PostDB × Nat × Option (String × Int) :=
  match findPost db pid with
  | none => (db, 404, none)
  | some p =>
    match findLike db uid pid with
    | some l =>
      let newCount : Int := max 0 (p.likes_count - 1)
      ({ db with
          likes := db.likes.filter (fun l2 => l2.id != l.id)
          posts := db.posts.map
            (fun q => if q.id == pid then { q with likes_count := newCount } else q) },
        200, some ("Post unliked", newCount))
    | none =>
      let newCount : Int := p.likes_count + 1
      ({ db with
          likes := db.likes ++ [{ id := db.next_like_id, user_id := uid, post_id := pid }]
          next_like_id := db.next_like_id + 1
          posts := db.posts.map
            (fun q => if q.id == pid then { q with likes_count := newCount } else q) },
        200, some ("Post liked", newCount))

/-! ### Generic list lemmas used to reason about keyed updates -/

/-- If a keyed update does not change the searched predicate, find? after the
update returns the updated image of what it returned before. -/
theorem find?_map_eq {α : Type} (f : α → α) (p : α → Bool) (l : List α) (a : α)
    (hinv : ∀ x, p (f x) = p x) (h : l.find? p = some a) :
    (l.map f).find? p = some (f a) := by
  induction l with
  | nil => cases h
  | cons x xs ih =>
    cases hpx : p x with
    | true =>
      rw [List.find?_cons_of_pos _ hpx] at h
      cases h
      rw [List.map_cons, List.find?_cons_of_pos _ (by rw [hinv, hpx])]
    | false =>
      rw [List.find?_cons_of_neg _ (by simp [hpx])] at h
      rw [List.map_cons, List.find?_cons_of_neg _ (by simp [hinv, hpx])]
      exact ih h

/-- Searching an appended list skips a first part with no match. -/
theorem find?_append_of_none {α : Type} (p : α → Bool) (l1 l2 : List α)
    (h : l1.find? p = none) : (l1 ++ l2).find? p = l2.find? p := by
  induction l1 with
  | nil => rfl
  | cons x xs ih =>
    cases hpx : p x with
    | true => rw [List.find?_cons_of_pos _ hpx] at h; cases h
    | false =>
      rw [List.find?_cons_of_neg _ (by simp [hpx])] at h
      rw [List.cons_append, List.find?_cons_of_neg _ (by simp [hpx])]
      exact ih h

/-! ### Users and communities (src/src/models/models.py, src/src/routes/user.py,
src/src/routes/community.py) -/

structure User where
  id : Nat
  username : String
  email : String
  first_name : String
  last_name : String
  bio : String
  college : String
  major : String
  year : String
  skills : String
  github_url : String
  linkedin_url : String
  portfolio_url : String
  is_active : Bool
  total_communities : Option Int
  total_projects : Option Int
deriving DecidableEq, Repr

structure Community where
  id : Nat
  name : String
  description : String
  category : String
  image_url : String
  is_private : Bool
  created_by : Nat
  tags : List String
  rules : String
  member_count : Int
  post_count : Int
  activity_score : Int
  is_featured : Bool
deriving DecidableEq, Repr

/-- Database state for the user and community blueprints.  members and
moderators are the user_communities and community_moderators join tables,
rows being (user_id, community_id) pairs. -/
structure CommDB where
  users : List User
  communities : List Community
  members : List (Nat × Nat)
  moderators : List (Nat × Nat)
  next_community_id : Nat
deriving DecidableEq, Repr

/-- JSON request body for creating a community; absent keys are none. -/
structure CommData where
  name : Option String
  description : Option String
  category : Option String
  image_url : Option String
  is_private : Option Bool
  tags : Option (List String)
  rules : Option String
deriving DecidableEq, Repr

/-- JSON request body for updating a user profile; absent keys are none. -/
structure UserData where
  first_name : Option String
  last_name : Option String
  bio : Option String
  college : Option String
  major : Option String
  year : Option String
  skills : Option String
  github_url : Option String
  linkedin_url : Option String
  portfolio_url : Option String
deriving DecidableEq, Repr

def findUser (db : CommDB) (uid : Nat) : Option User :=
  db.users.find? (fun u => u.id == uid)

def findComm (db : CommDB) (cid : Nat) : Option Community :=
  db.communities.find? (fun c => c.id == cid)

/-- The membership test user in community.members on the join table. -/
def isMemberPair (db : CommDB) (uid cid : Nat) : Bool :=
  db.members.any (fun m => m.1 == uid && m.2 == cid)

/-- The rows of the user_communities join table for one community. -/
def membersOf (db : CommDB) (cid : Nat) : List (Nat × Nat) :=
  db.members.filter (fun m => m.2 == cid)

/-! ### Route handlers of src/src/routes/user.py -/

/-- GET /users/: only rows with is_active = True. -/
def get_users (db : CommDB) : List User :=
  db.users.filter (fun u => u.is_active)

/-- GET /users/<user_id>: get_or_404, no is_active filter. -/
def get_user (db : CommDB) (uid : Nat) : Nat × Option User :=
  match findUser db uid with
  | none => (404, none)
  | some u => (200, some u)

/-- DELETE /users/<user_id>: soft delete, only flips is_active to False. -/
def delete_user (db : CommDB) (uid : Nat) : CommDB × Nat :=
  match findUser db uid with
  | none => (db, 404)
  | some _ =>
    let users2 := db.users.map
      (fun v => if v.id == uid then { v with is_active := false } else v)
    ({ db with users := users2 }, 204)

/-! ### Route handlers of src/src/routes/community.py -/

/-- POST /communities/: validate name, description and category, reject a
duplicate name, insert the community with member_count 1 and the creator as
member and moderator, and bump the creator's total_communities.  A missing
creator row makes the ORM append raise, which the blanket except turns into
a 500 after rollback. -/
def create_community (db : CommDB) (uid : Nat) (d : CommData) :
    CommDB × Nat × Option Community :=
  if strFalsy d.name then (db, 400, none)
  else if strFalsy d.description then (db, 400, none)
  else if strFalsy d.category then (db, 400, none)
  else if db.communities.any (fun c => c.name == d.name.getD "") then (db, 400, none)
  else
    match findUser db uid with
    | none => (db, 500, none)
    | some _ =>
      let c : Community :=
        { id := db.next_community_id
          name := d.name.getD ""
          description := d.description.getD ""
          category := d.category.getD ""
          image_url := d.image_url.getD ""
          is_private := d.is_private.getD false
          created_by := uid
          tags := d.tags.getD []
          rules := d.rules.getD ""
          member_count := 1
          post_count := 0
          activity_score := 0
          is_featured := false }
      ({ db with
          communities := db.communities ++ [c]
          members := db.members ++ [(uid, c.id)]
          moderators := db.moderators ++ [(uid, c.id)]
          users := db.users.map (fun v =>
            if v.id == uid then
              { v with total_communities := some (pyOrInt v.total_communities 0 + 1) }
            else v)
          next_community_id := db.next_community_id + 1 },
        201, some c)

/-- DELETE /communities/<community_id>: creator-only; clamp-decrements each
member's total_communities, then deletes the row and its join-table rows. -/
def delete_community (db : CommDB) (uid cid : Nat) : CommDB × Nat :=
  match findComm db cid with
  | none => (db, 404)
  | some c =>
    if c.created_by ≠ uid then (db, 403)
    else
      ({ db with
          users := db.users.map (fun v =>
            if isMemberPair db v.id cid then
              { v with total_communities := some (max 0 (pyOrInt v.total_communities 1 - 1)) }
            else v)
          communities := db.communities.filter (fun q => q.id != cid)
          members := db.members.filter (fun m => m.2 != cid)
          moderators := db.moderators.filter (fun m => m.2 != cid) }, 204)

/-- POST /communities/<community_id>/join: reject an existing member with 400
and a private community with 403, then append the membership row, recompute
member_count as len(members), bump activity_score and total_communities. -/
def join_community (db : CommDB) (uid cid : Nat) : CommDB × Nat :=
  match findComm db cid with
  | none => (db, 404)
  | some c =>
    if isMemberPair db uid cid then (db, 400)
    else if c.is_private then (db, 403)
    else
      match findUser db uid with
      | none => (db, 500)
      | some _ =>
        ({ db with
            members := db.members ++ [(uid, cid)]
            communities := db.communities.map (fun q =>
              if q.id == cid then
                { q with
                  member_count :=
                    (((db.members ++ [(uid, cid)]).filter (fun m => m.2 == cid)).length : Int)
                  activity_score := q.activity_score + 1 }
              else q)
            users := db.users.map (fun v =>
              if v.id == uid then
                { v with total_communities := some (pyOrInt v.total_communities 0 + 1) }
              else v) }, 200)

/-- POST /communities/<community_id>/leave: reject a non-member and the
creator with 400, then remove the membership row, recompute member_count as
len(members), drop a moderator row if present, clamp total_communities. -/
def leave_community (db : CommDB) (uid cid : Nat) : CommDB × Nat :=
  match findComm db cid with
  | none => (db, 404)
  | some c =>
    if isMemberPair db uid cid = false then (db, 400)
    else if c.created_by = uid then (db, 400)
    else
      ({ db with
          members := db.members.eraseP (fun m => m.1 == uid && m.2 == cid)
          communities := db.communities.map (fun q =>
            if q.id == cid then
              { q with
                member_count :=
                  (((db.members.eraseP (fun m => m.1 == uid && m.2 == cid)).filter
                    (fun m => m.2 == cid)).length : Int) }
            else q)
          moderators :=
            if db.moderators.any (fun m => m.1 == uid && m.2 == cid) then
              db.moderators.eraseP (fun m => m.1 == uid && m.2 == cid)
            else db.moderators
          users := db.users.map (fun v =>
            if v.id == uid then
              { v with total_communities := some (max 0 (pyOrInt v.total_communities 1 - 1)) }
            else v) }, 200)

/-! ### Projects (src/src/routes/project.py) -/

structure Project where
  id : Nat
  title : String
  created_by : Nat
  current_team_size : Int
deriving DecidableEq, Repr

structure ProjectRole where
  id : Nat
  project_id : Nat
  user_id : Nat
  role_name : String
  is_lead : Bool
deriving DecidableEq, Repr

/-- Database state for the project blueprint; proj_members is the
user_projects join table, rows being (user_id, project_id) pairs. -/
structure ProjDB where
  users : List User
  projects : List Project
  proj_members : List (Nat × Nat)
  roles : List ProjectRole
deriving DecidableEq, Repr

def findProj (db : ProjDB) (pid : Nat) : Option Project :=
  db.projects.find? (fun p => p.id == pid)

def findProjUser (db : ProjDB) (uid : Nat) : Option User :=
  db.users.find? (fun u => u.id == uid)

def isProjMember (db : ProjDB) (uid pid : Nat) : Bool :=
  db.proj_members.any (fun m => m.1 == uid && m.2 == pid)

/-- POST /projects/<project_id>/leave: reject a non-member and the creator
with 400, then remove the membership row and role, decrement
current_team_size, clamp total_projects. -/
def leave_project (db : ProjDB) (uid pid : Nat) : ProjDB × Nat :=
  match findProj db pid with
  | none => (db, 404)
  | some proj =>
    if isProjMember db uid pid = false then (db, 400)
    else if proj.created_by = uid then (db, 400)
    else
      ({ db with
          proj_members := db.proj_members.eraseP (fun m => m.1 == uid && m.2 == pid)
          projects := db.projects.map (fun q =>
            if q.id == pid then { q with current_team_size := q.current_team_size - 1 } else q)
          roles := db.roles.filter (fun r => !(r.project_id == pid && r.user_id == uid))
          users := db.users.map (fun v =>
            if v.id == uid then
              { v with total_projects := some (max 0 (pyOrInt v.total_projects 1 - 1)) }
            else v) }, 200)

/-- DELETE /projects/<project_id>/members/<user_id>: only the creator or a
lead may remove; removing the creator is rejected with 400 before the
target row is even looked up. -/
def remove_member (db : ProjDB) (cur pid target : Nat) : ProjDB × Nat :=
  match findProj db pid with
  | none => (db, 404)
  | some proj =>
    if proj.created_by ≠ cur ∧
        db.roles.any (fun r => r.project_id == pid && r.user_id == cur && r.is_lead) = false then
      (db, 403)
    else if target = proj.created_by then (db, 400)
    else
      match findProjUser db target with
      | none => (db, 404)
      | some _ =>
        if isProjMember db target pid = false then (db, 400)
        else
          ({ db with
              proj_members := db.proj_members.eraseP (fun m => m.1 == target && m.2 == pid)
              projects := db.projects.map (fun q =>
                if q.id == pid then { q with current_team_size := q.current_team_size - 1 } else q)
              roles := db.roles.filter (fun r => !(r.project_id == pid && r.user_id == target))
              users := db.users.map (fun v =>
                if v.id == target then
                  { v with total_projects := some (max 0 (pyOrInt v.total_projects 1 - 1)) }
                else v) }, 200)

/-! ### Skills and endorsements (src/src/routes/skill.py) -/

structure UserSkill where
  id : Nat
  user_id : Nat
  skill_id : Nat
  endorsement_count : Int
deriving DecidableEq, Repr

structure SkillEndorsement where
  id : Nat
  endorser_id : Nat
  endorsed_user_id : Nat
  skill_id : Nat
deriving DecidableEq, Repr

structure SkillDB where
  user_skills : List UserSkill
  endorsements : List SkillEndorsement
  next_endorsement_id : Nat
deriving DecidableEq, Repr

def findUserSkill (db : SkillDB) (uid sid : Nat) : Option UserSkill :=
  db.user_skills.find? (fun us => us.user_id == uid && us.skill_id == sid)

def findEndorsement (db : SkillDB) (endorser endorsed sid : Nat) : Option SkillEndorsement :=
  db.endorsements.find?
    (fun e => e.endorser_id == endorser && e.endorsed_user_id == endorsed && e.skill_id == sid)

/-- POST /skills/endorse: falsy ids and self-endorsement give 400, a missing
UserSkill row gives 400, a duplicate endorsement gives 400; otherwise one
SkillEndorsement row is inserted and endorsement_count incremented. -/
def endorse_skill (db : SkillDB) (uid : Nat) (endorsed_user_id skill_id : Option Nat) :
    SkillDB × Nat × Option Int :=
  if natFalsy endorsed_user_id || natFalsy skill_id then (db, 400, none)
  else if endorsed_user_id.getD 0 = uid then (db, 400, none)
  else
    match findUserSkill db (endorsed_user_id.getD 0) (skill_id.getD 0) with
    | none => (db, 400, none)
    | some us =>
      match findEndorsement db uid (endorsed_user_id.getD 0) (skill_id.getD 0) with
      | some _ => (db, 400, none)
      | none =>
        ({ db with
            endorsements := db.endorsements ++
              [{ id := db.next_endorsement_id, endorser_id := uid
                 endorsed_user_id := endorsed_user_id.getD 0
                 skill_id := skill_id.getD 0 }]
            user_skills := db.user_skills.map (fun u2 =>
              if u2.id == us.id then { u2 with endorsement_count := u2.endorsement_count + 1 } else u2)
            next_endorsement_id := db.next_endorsement_id + 1 },
          201, some (us.endorsement_count + 1))

/-- DELETE /skills/endorsements/<endorsement_id>: endorser-only; the matching
endorsement_count is clamp-decremented and the row deleted. -/
def remove_endorsement (db : SkillDB) (uid eid : Nat) : SkillDB × Nat :=
  match db.endorsements.find? (fun e => e.id == eid) with
  | none => (db, 404)
  | some e =>
    if e.endorser_id ≠ uid then (db, 403)
    else
      let user_skills2 :=
        match findUserSkill db e.endorsed_user_id e.skill_id with
        | none => db.user_skills
        | some us =>
          db.user_skills.map (fun u2 =>
            if u2.id == us.id then
              { u2 with endorsement_count := max 0 (u2.endorsement_count - 1) }
            else u2)
      ({ db with
          user_skills := user_skills2
          endorsements := db.endorsements.filter (fun e2 => e2.id != eid) }, 200)

/-! ### Exception propagation through handlers

An exception raised inside a handler body is modelled with Except: an inner
computation that raises returns Except.error, and a handler wrapped in the
blanket try/except converts that into an Except.ok response carrying status
500 and the error-message JSON, while a handler without try/except passes
the Except.error through unchanged (the exception propagates out).  The
DB query of get_communities and the commit of update_user are the injected
fallible computations. -/

inductive HResp (α : Type) where
  | payload (status : Nat) (val : α)
  | errJson (status : Nat) (msg : String)
  | notFound
deriving DecidableEq, Repr

/-- GET /communities/ (src/src/routes/community.py): the whole body is inside
try/except, so a raising query becomes a 500 with the error string. -/
def get_communities (query : Except String (List Community)) :
    Except String (HResp (List Community)) :=
  match query with
  | Except.ok cs => Except.ok (HResp.payload 200 cs)
  | Except.error e => Except.ok (HResp.errJson 500 e)

/-- PUT /users/<user_id> (src/src/routes/user.py): get_or_404, ten
data.get field updates, commit, 200 — with no try/except around any of it,
so a raising commit propagates out of the handler. -/
def update_user (db : CommDB) (uid : Nat) (d : UserData)
    (commit : Except String Unit) : CommDB × Except String (HResp User) :=
  match findUser db uid with
  | none => (db, Except.ok HResp.notFound)
  | some u =>
    let u2 : User :=
      { u with
        first_name := d.first_name.getD u.first_name
        last_name := d.last_name.getD u.last_name
        bio := d.bio.getD u.bio
        college := d.college.getD u.college
        major := d.major.getD u.major
        year := d.year.getD u.year
        skills := d.skills.getD u.skills
        github_url := d.github_url.getD u.github_url
        linkedin_url := d.linkedin_url.getD u.linkedin_url
        portfolio_url := d.portfolio_url.getD u.portfolio_url }
    match commit with
    | Except.error e => (db, Except.error e)
    | Except.ok _ =>
      let users2 := db.users.map (fun v => if v.id == uid then u2 else v)
      ({ db with users := users2 }, Except.ok (HResp.payload 200 u2))

/-- Does a handler outcome have the caught-exception shape, a JSON error
body with status 500? -/
def caught500 {α : Type} : Except String (HResp α) → Bool
  | Except.ok (HResp.errJson 500 _) => true
  | _ => false

/-! ### Operation alphabets, for stating state invariants over any
sequence of requests -/

inductive PostOp where
  | create (uid : Nat) (d : PostData) (now : Nat)
  | update (uid pid : Nat) (d : PostData)
  | del (uid pid : Nat)
  | like (uid pid : Nat)
deriving DecidableEq, Repr

def applyPostOp (op : PostOp) (db : PostDB) : PostDB :=
  match op with
  | PostOp.create uid d now => (create_post db uid d now).1
  | PostOp.update uid pid d => (update_post db uid pid d).1
  | PostOp.del uid pid => (delete_post db uid pid).1
  | PostOp.like uid pid => (like_post db uid pid).1

def runPostOps (ops : List PostOp) (db : PostDB) : PostDB :=
  ops.foldl (fun s op => applyPostOp op s) db

inductive SkillOp where
  | endorse (uid : Nat) (endorsed_user_id skill_id : Option Nat)
  | removeE (uid eid : Nat)
deriving DecidableEq, Repr

def applySkillOp (op : SkillOp) (db : SkillDB) : SkillDB :=
  match op with
  | SkillOp.endorse uid e s => (endorse_skill db uid e s).1
  | SkillOp.removeE uid eid => (remove_endorsement db uid eid).1

def runSkillOps (ops : List SkillOp) (db : SkillDB) : SkillDB :=
  ops.foldl (fun s op => applySkillOp op s) db

inductive CommOp where
  | createC (uid : Nat) (d : CommData)
  | join (uid cid : Nat)
  | leave (uid cid : Nat)
  | deleteC (uid cid : Nat)
  | updateU (uid : Nat) (d : UserData)
  | deleteU (uid : Nat)
deriving DecidableEq, Repr

def applyCommOp (op : CommOp) (db : CommDB) : CommDB :=
  match op with
  | CommOp.createC uid d => (create_community db uid d).1
  | CommOp.join uid cid => (join_community db uid cid).1
  | CommOp.leave uid cid => (leave_community db uid cid).1
  | CommOp.deleteC uid cid => (delete_community db uid cid).1
  | CommOp.updateU uid d => (update_user db uid d (Except.ok ())).1
  | CommOp.deleteU uid => (delete_user db uid).1

def runCommOps (ops : List CommOp) (db : CommDB) : CommDB :=
  ops.foldl (fun s op => applyCommOp op s) db

/-! ### State invariants -/

/-- The denormalized counters named by the spec are nonnegative. -/
def postCountersNonneg (db : PostDB) : Prop :=
  ∀ p ∈ db.posts, 0 ≤ p.likes_count

def skillCountersNonneg (db : SkillDB) : Prop :=
  ∀ us ∈ db.user_skills, 0 ≤ us.endorsement_count

def commCountersNonneg (db : CommDB) : Prop :=
  ∀ u ∈ db.users, 0 ≤ u.total_communities.getD 0

/-- Well-formedness of the community database: primary keys below the
counter, distinct primary keys, and the creator of every community present
in its membership join table. -/
def CommWF (db : CommDB) : Prop :=
  (∀ c ∈ db.communities, c.id < db.next_community_id) ∧
  (db.communities.map Community.id).Nodup ∧
  (∀ c ∈ db.communities, (c.created_by, c.id) ∈ db.members)

/-! ### Concrete states used by witnesses and counterexamples -/

def mkUser (uid : Nat) (uname : String) : User :=
  { id := uid, username := uname, email := uname, first_name := uname
    last_name := uname, bio := "", college := "", major := "", year := ""
    skills := "", github_url := "", linkedin_url := "", portfolio_url := ""
    is_active := true, total_communities := some 0, total_projects := some 0 }

def exPost1 : Post :=
  { id := 1, title := "t", content := "hello", post_type := "general"
    image_url := "", likes_count := 1, author_id := 1, community_id := none
    created_at := 0 }

def exLike1 : Like := { id := 1, user_id := 2, post_id := 1 }

/-- One post with one like by user 2: the state right after a first like. -/
def pdb1 : PostDB :=
  { posts := [exPost1], likes := [exLike1], next_post_id := 2, next_like_id := 2 }

def exComm1 : Community :=
  { id := 1, name := "c1", description := "d", category := "tech"
    image_url := "", is_private := false, created_by := 1, tags := []
    rules := "", member_count := 1, post_count := 0, activity_score := 0
    is_featured := false }

def cdb1 : CommDB :=
  { users := [mkUser 1 "alice", mkUser 2 "bob"], communities := [exComm1]
    members := [(1, 1)], moderators := [(1, 1)], next_community_id := 2 }

/-! ### Claim C2: duplicate like -/

/-- C2 (counterexample): the claim says a second like request by the same
user leaves the like rows and likes_count unchanged; on the state pdb1
reached after a first like by user 2, a second like request deletes the
like row and decrements likes_count to 0. -/
theorem c2_duplicate_like_not_idempotent :
    findLike pdb1 2 1 = some exLike1 ∧
    findPost pdb1 1 = some exPost1 ∧
    (like_post pdb1 2 1).1.likes ≠ pdb1.likes ∧
    (like_post pdb1 2 1).1.likes = [] ∧
    findPost (like_post pdb1 2 1).1 1 = some { exPost1 with likes_count := 0 } := by
  decide

/-- C2 (amended): a duplicate like request is not a no-op but a toggle:
when a Like row by the user for the post already exists, like_post returns
200 "Post unliked", deletes exactly that Like row, and sets the post's
likes_count to max 0 (previous - 1). -/
theorem c2_duplicate_like_toggles (db : PostDB) (uid pid : Nat) (p : Post) (l : Like)
    (hp : findPost db pid = some p) (hl : findLike db uid pid = some l) :
    (like_post db uid pid).2.1 = 200 ∧
    (like_post db uid pid).1.likes = db.likes.filter (fun l2 => l2.id != l.id) ∧
    findPost (like_post db uid pid).1 pid =
      some { p with likes_count := max 0 (p.likes_count - 1) } ∧
    (like_post db uid pid).2.2 = some ("Post unliked", max 0 (p.likes_count - 1)) := by
  have hp2 : List.find? (fun q => q.id == pid) db.posts = some p := hp
  have hpid0 := List.find?_some hp2
  have hpid : (p.id == pid) = true := hpid0
  have heq : like_post db uid pid =
      ({ db with
          likes := db.likes.filter (fun l2 => l2.id != l.id)
          posts := db.posts.map (fun q =>
            if q.id == pid then { q with likes_count := max 0 (p.likes_count - 1) } else q) },
        200, some ("Post unliked", max 0 (p.likes_count - 1))) := by
    unfold like_post
    simp only [hp, hl]
  refine ⟨by rw [heq], by rw [heq], ?_, by rw [heq]⟩
  rw [heq]
  have hmap := find?_map_eq
    (fun q => if q.id == pid then { q with likes_count := max 0 (p.likes_count - 1) } else q)
    (fun q => q.id == pid) db.posts p
    (fun x => by by_cases hx : (x.id == pid) = true <;> simp [hx, hpid])
    hp2
  simp only [findPost]
  rw [hmap]
  simp [hpid]

/-- C2 (witness for the amended theorem), on the concrete state pdb1. -/
theorem c2_duplicate_like_toggles_witness :
    (like_post pdb1 2 1).2.1 = 200 ∧
    (like_post pdb1 2 1).1.likes = pdb1.likes.filter (fun l2 => l2.id != exLike1.id) ∧
    findPost (like_post pdb1 2 1).1 1 =
      some { exPost1 with likes_count := max 0 (exPost1.likes_count - 1) } ∧
    (like_post pdb1 2 1).2.2 = some ("Post unliked", max 0 (exPost1.likes_count - 1)) :=
  c2_duplicate_like_toggles pdb1 2 1 exPost1 exLike1 (by decide) (by decide)

/-! ### Claim C3: DELETE by a non-owner returns 403 and deletes nothing -/

/-- C3: a DELETE of an existing post by an authenticated user other than its
author, and of an existing community by a user other than its creator,
returns 403 and leaves the database unchanged, the row still present. -/
theorem c3_delete_by_nonowner_403 :
    (∀ (db : PostDB) (uid pid : Nat) (p : Post), findPost db pid = some p →
      p.author_id ≠ uid →
      delete_post db uid pid = (db, 403) ∧
        findPost (delete_post db uid pid).1 pid = some p) ∧
    (∀ (db : CommDB) (uid cid : Nat) (c : Community), findComm db cid = some c →
      c.created_by ≠ uid →
      delete_community db uid cid = (db, 403) ∧
        findComm (delete_community db uid cid).1 cid = some c) := by
  constructor
  · intro db uid pid p hp hne
    have h1 : delete_post db uid pid = (db, 403) := by
      unfold delete_post
      simp only [hp]
      rw [if_pos hne]
    exact ⟨h1, by rw [h1]; exact hp⟩
  · intro db uid cid c hc hne
    have h1 : delete_community db uid cid = (db, 403) := by
      unfold delete_community
      simp only [hc]
      rw [if_pos hne]
    exact ⟨h1, by rw [h1]; exact hc⟩

/-- C3 (witness): user 2 requests deletion of post 1 and community 1, both
created by user 1. -/
theorem c3_delete_by_nonowner_403_witness :
    (delete_post pdb1 2 1 = (pdb1, 403) ∧
      findPost (delete_post pdb1 2 1).1 1 = some exPost1) ∧
    (delete_community cdb1 2 1 = (cdb1, 403) ∧
      findComm (delete_community cdb1 2 1).1 1 = some exComm1) :=
  ⟨c3_delete_by_nonowner_403.1 pdb1 2 1 exPost1 (by decide) (by decide),
    c3_delete_by_nonowner_403.2 cdb1 2 1 exComm1 (by decide) (by decide)⟩

/-! ### Claim C6: POST then GET returns the created resource -/

/-- C6: a create-post request with non-empty content and submitted title,
post_type and image_url succeeds with 201, and a GET of the returned id
answers 200 with a post carrying exactly the submitted field values. -/
theorem c6_create_then_get (db : PostDB) (uid now : Nat) (d : PostData) (t ct pt iu : String)
    (ht : d.title = some t) (hc : d.content = some ct) (hct : ct ≠ "")
    (hpt : d.post_type = some pt) (hiu : d.image_url = some iu)
    (hfresh : ∀ p ∈ db.posts, p.id ≠ db.next_post_id) :
    (create_post db uid d now).2.1 = 201 ∧
    ∃ p, (create_post db uid d now).2.2 = some p ∧
      get_post (create_post db uid d now).1 p.id = (200, some p) ∧
      p.title = t ∧ p.content = ct ∧ p.post_type = pt ∧ p.image_url = iu := by
  have hfalsy : strFalsy d.content = false := by
    rw [hc]
    simp only [strFalsy]
    cases hemp : ct.isEmpty with
    | false => rfl
    | true => exact absurd ((String.isEmpty_iff ct).mp hemp) hct
  have heq : create_post db uid d now =
      ({ db with
          posts := db.posts ++
            [{ id := db.next_post_id, title := d.title.getD ""
               content := d.content.getD "", post_type := d.post_type.getD "general"
               image_url := d.image_url.getD "", likes_count := 0, author_id := uid
               community_id := d.community_id, created_at := now }]
          next_post_id := db.next_post_id + 1 },
        201, some
          { id := db.next_post_id, title := d.title.getD ""
            content := d.content.getD "", post_type := d.post_type.getD "general"
            image_url := d.image_url.getD "", likes_count := 0, author_id := uid
            community_id := d.community_id, created_at := now }) := by
    unfold create_post
    rw [if_neg (by simp [hfalsy])]
  have hnone : List.find? (fun q => q.id == db.next_post_id) db.posts = none := by
    rw [List.find?_eq_none]
    intro x hx
    simpa using hfresh x hx
  have hget : findPost (create_post db uid d now).1 db.next_post_id =
      some { id := db.next_post_id, title := d.title.getD ""
             content := d.content.getD "", post_type := d.post_type.getD "general"
             image_url := d.image_url.getD "", likes_count := 0, author_id := uid
             community_id := d.community_id, created_at := now } := by
    rw [heq]
    simp only [findPost]
    rw [find?_append_of_none _ _ _ hnone]
    rw [List.find?_cons_of_pos _ (by simp)]
  refine ⟨by rw [heq], ?_⟩
  refine ⟨{ id := db.next_post_id, title := d.title.getD ""
            content := d.content.getD "", post_type := d.post_type.getD "general"
            image_url := d.image_url.getD "", likes_count := 0, author_id := uid
            community_id := d.community_id, created_at := now }, by rw [heq], ?_, ?_, ?_, ?_, ?_⟩
  · unfold get_post
    simp only [hget]
  · rw [ht]; rfl
  · rw [hc]; rfl
  · rw [hpt]; rfl
  · rw [hiu]; rfl

/-- Concrete create-post request body. -/
def exPostData1 : PostData :=
  { title := some "T", content := some "C", post_type := some "blog"
    image_url := some "img", community_id := none }

/-- C6 (witness): creating a post with exPostData1 on pdb1 and reading it
back. -/
theorem c6_create_then_get_witness :
    (create_post pdb1 3 exPostData1 7).2.1 = 201 ∧
    ∃ p, (create_post pdb1 3 exPostData1 7).2.2 = some p ∧
      get_post (create_post pdb1 3 exPostData1 7).1 p.id = (200, some p) ∧
      p.title = "T" ∧ p.content = "C" ∧ p.post_type = "blog" ∧ p.image_url = "img" :=
  c6_create_then_get pdb1 3 7 exPostData1 "T" "C" "blog" "img"
    rfl rfl (by decide) rfl rfl (by decide)

/-! ### Claim C7: PUT on a post is a field-by-field update with a frame -/

/-- C7: an update by the author returns 200 and afterwards the post carries
the request value for each of title, content, post_type and image_url when
present and the previous value when absent, while likes_count, author_id,
community_id and created_at are unchanged. -/
theorem c7_update_post_frame (db : PostDB) (uid pid : Nat) (d : PostData) (p : Post)
    (hp : findPost db pid = some p) (hown : p.author_id = uid) :
    (update_post db uid pid d).2 = 200 ∧
    ∃ q, findPost (update_post db uid pid d).1 pid = some q ∧
      q.title = d.title.getD p.title ∧ q.content = d.content.getD p.content ∧
      q.post_type = d.post_type.getD p.post_type ∧
      q.image_url = d.image_url.getD p.image_url ∧
      q.likes_count = p.likes_count ∧ q.author_id = p.author_id ∧
      q.community_id = p.community_id ∧ q.created_at = p.created_at := by
  have hp2 : List.find? (fun q => q.id == pid) db.posts = some p := hp
  have hpid0 := List.find?_some hp2
  have hpid : (p.id == pid) = true := hpid0
  have heq : update_post db uid pid d =
      ({ db with posts := db.posts.map (fun q =>
          if q.id == pid then
            { p with
              title := d.title.getD p.title
              content := d.content.getD p.content
              post_type := d.post_type.getD p.post_type
              image_url := d.image_url.getD p.image_url }
          else q) }, 200) := by
    unfold update_post
    simp only [hp]
    rw [if_neg (by simp [hown])]
  refine ⟨by rw [heq], ?_⟩
  have hmap := find?_map_eq
    (fun q => if q.id == pid then
      { p with
        title := d.title.getD p.title
        content := d.content.getD p.content
        post_type := d.post_type.getD p.post_type
        image_url := d.image_url.getD p.image_url }
      else q)
    (fun q => q.id == pid) db.posts p
    (fun x => by by_cases hx : (x.id == pid) = true <;> simp [hx, hpid])
    hp2
  refine ⟨{ p with
            title := d.title.getD p.title
            content := d.content.getD p.content
            post_type := d.post_type.getD p.post_type
            image_url := d.image_url.getD p.image_url }, ?_, rfl, rfl, rfl, rfl, rfl, rfl, rfl, rfl⟩
  rw [heq]
  simp only [findPost]
  rw [hmap]
  simp [hpid]

/-- C7 (witness): author 1 updates post 1 of pdb1 with exPostData1. -/
theorem c7_update_post_frame_witness :
    (update_post pdb1 1 1 exPostData1).2 = 200 ∧
    ∃ q, findPost (update_post pdb1 1 1 exPostData1).1 1 = some q ∧
      q.title = exPostData1.title.getD exPost1.title ∧
      q.content = exPostData1.content.getD exPost1.content ∧
      q.post_type = exPostData1.post_type.getD exPost1.post_type ∧
      q.image_url = exPostData1.image_url.getD exPost1.image_url ∧
      q.likes_count = exPost1.likes_count ∧ q.author_id = exPost1.author_id ∧
      q.community_id = exPost1.community_id ∧ q.created_at = exPost1.created_at :=
  c7_update_post_frame pdb1 1 1 exPostData1 exPost1 (by decide) (by decide)

/-! ### Claim C10: deleting a user is a soft delete -/

/-- C10: DELETE of an existing user answers 204 and only flips is_active to
False; the user then vanishes from the GET users listing but GET of the id
still answers 200 with the row. -/
theorem c10_soft_delete_user (db : CommDB) (uid : Nat) (u : User)
    (hu : findUser db uid = some u) :
    (delete_user db uid).2 = 204 ∧
    findUser (delete_user db uid).1 uid = some { u with is_active := false } ∧
    (∀ v ∈ get_users (delete_user db uid).1, v.id ≠ uid) ∧
    get_user (delete_user db uid).1 uid = (200, some { u with is_active := false }) := by
  have hu2 : List.find? (fun x => x.id == uid) db.users = some u := hu
  have huid0 := List.find?_some hu2
  have huid : (u.id == uid) = true := huid0
  have heq : delete_user db uid =
      ({ db with users := db.users.map (fun v =>
          if v.id == uid then { v with is_active := false } else v) }, 204) := by
    unfold delete_user
    simp only [hu]
  have hfind : findUser (delete_user db uid).1 uid = some { u with is_active := false } := by
    rw [heq]
    simp only [findUser]
    have hmap := find?_map_eq
      (fun v => if v.id == uid then { v with is_active := false } else v)
      (fun v => v.id == uid) db.users u
      (fun x => by by_cases hx : (x.id == uid) = true <;> simp [hx])
      hu2
    rw [hmap]
    simp [huid]
  refine ⟨by rw [heq], hfind, ?_, ?_⟩
  · intro v hv
    rw [heq] at hv
    simp only [get_users] at hv
    have hv2 := List.mem_filter.mp hv
    obtain ⟨w, hw, hwv⟩ := List.mem_map.mp hv2.1
    by_cases hwid : (w.id == uid) = true
    · rw [← hwv] at hv2
      simp [hwid] at hv2
    · intro hvid
      rw [← hwv] at hvid
      simp [hwid] at hvid
      exact hwid (by simp [hvid])
  · unfold get_user
    simp only [hfind]

/-- C10 (witness): soft-deleting user 2 of cdb1. -/
theorem c10_soft_delete_user_witness :
    (delete_user cdb1 2).2 = 204 ∧
    findUser (delete_user cdb1 2).1 2 = some { mkUser 2 "bob" with is_active := false } ∧
    (∀ v ∈ get_users (delete_user cdb1 2).1, v.id ≠ 2) ∧
    get_user (delete_user cdb1 2).1 2 = (200, some { mkUser 2 "bob" with is_active := false }) :=
  c10_soft_delete_user cdb1 2 (mkUser 2 "bob") (by decide)

/-! ### Claim C4: exception handling coverage -/

/-- Request body with no updatable field present. -/
def exUserData1 : UserData :=
  { first_name := none, last_name := none, bio := none, college := none
    major := none, year := none, skills := none, github_url := none
    linkedin_url := none, portfolio_url := none }

/-- C4 (counterexample): the claim says every route handler catches
exceptions and answers 500 with an error JSON; the user blueprint handler
update_user has no try/except, so an exception raised by the commit
propagates out of the handler instead. -/
theorem c4_user_blueprint_exception_propagates :
    (update_user cdb1 1 exUserData1 (Except.error "db commit failed")).2 =
      Except.error "db commit failed" ∧
    caught500 (update_user cdb1 1 exUserData1 (Except.error "db commit failed")).2 = false :=
  ⟨rfl, rfl⟩

/-- C4 (amended): route handlers wrapped in the blanket try/except, such as
those of the community blueprint, turn any exception into an error JSON
with status 500, while the handlers of the user blueprint have no
try/except and let exceptions propagate out. -/
theorem c4_try_except_outside_user_blueprint :
    (∀ e, get_communities (Except.error e) = Except.ok (HResp.errJson 500 e)) ∧
    (∀ cs, get_communities (Except.ok cs) = Except.ok (HResp.payload 200 cs)) ∧
    (∀ (db : CommDB) (uid : Nat) (d : UserData) (u : User) (e : String),
      findUser db uid = some u →
      (update_user db uid d (Except.error e)).2 = Except.error e) := by
  refine ⟨fun e => rfl, fun cs => rfl, ?_⟩
  intro db uid d u e hu
  unfold update_user
  simp only [hu]

/-- C4 (witness for the amended theorem). -/
theorem c4_try_except_outside_user_blueprint_witness :
    get_communities (Except.error "boom") = Except.ok (HResp.errJson 500 "boom") ∧
    get_communities (Except.ok [exComm1]) = Except.ok (HResp.payload 200 [exComm1]) ∧
    (update_user cdb1 2 exUserData1 (Except.error "down")).2 = Except.error "down" :=
  ⟨c4_try_except_outside_user_blueprint.1 "boom",
    c4_try_except_outside_user_blueprint.2.1 [exComm1],
    c4_try_except_outside_user_blueprint.2.2 cdb1 2 exUserData1 (mkUser 2 "bob") "down"
      (by decide)⟩

/-! ### Claim C5: at most one endorsement per triple -/

/-- C5: with valid ids, no self-endorsement and an existing UserSkill row, a
duplicate endorsement request answers 400 and changes nothing, while a
first endorsement answers 201, appends exactly one SkillEndorsement row and
increments the target endorsement_count by exactly one. -/
theorem c5_endorsement_uniqueness :
    (∀ (db : SkillDB) (uid e s : Nat) (us : UserSkill) (ex : SkillEndorsement),
      e ≠ 0 → s ≠ 0 → e ≠ uid →
      findUserSkill db e s = some us →
      findEndorsement db uid e s = some ex →
      endorse_skill db uid (some e) (some s) = (db, 400, none)) ∧
    (∀ (db : SkillDB) (uid e s : Nat) (us : UserSkill),
      e ≠ 0 → s ≠ 0 → e ≠ uid →
      findUserSkill db e s = some us →
      findEndorsement db uid e s = none →
      (endorse_skill db uid (some e) (some s)).2.1 = 201 ∧
      (endorse_skill db uid (some e) (some s)).1.endorsements =
        db.endorsements ++
          [{ id := db.next_endorsement_id, endorser_id := uid
             endorsed_user_id := e, skill_id := s }] ∧
      findUserSkill (endorse_skill db uid (some e) (some s)).1 e s =
        some { us with endorsement_count := us.endorsement_count + 1 } ∧
      (endorse_skill db uid (some e) (some s)).2.2 = some (us.endorsement_count + 1)) := by
  constructor
  · intro db uid e s us ex he0 hs0 hne hus hex
    unfold endorse_skill
    rw [if_neg (by simp [natFalsy, he0, hs0])]
    simp only [Option.getD_some]
    rw [if_neg hne]
    simp only [hus, hex]
  · intro db uid e s us he0 hs0 hne hus hex
    have hus2 : List.find? (fun x => x.user_id == e && x.skill_id == s) db.user_skills =
        some us := hus
    have husp := List.find?_some hus2
    have heq : endorse_skill db uid (some e) (some s) =
        ({ db with
            endorsements := db.endorsements ++
              [{ id := db.next_endorsement_id, endorser_id := uid
                 endorsed_user_id := e, skill_id := s }]
            user_skills := db.user_skills.map (fun u2 =>
              if u2.id == us.id then
                { u2 with endorsement_count := u2.endorsement_count + 1 }
              else u2)
            next_endorsement_id := db.next_endorsement_id + 1 },
          201, some (us.endorsement_count + 1)) := by
      unfold endorse_skill
      rw [if_neg (by simp [natFalsy, he0, hs0])]
      simp only [Option.getD_some]
      rw [if_neg hne]
      simp only [hus, hex]
    refine ⟨by rw [heq], by rw [heq], ?_, by rw [heq]⟩
    rw [heq]
    have hmap := find?_map_eq
      (fun u2 => if u2.id == us.id then
        { u2 with endorsement_count := u2.endorsement_count + 1 } else u2)
      (fun x => x.user_id == e && x.skill_id == s) db.user_skills us
      (fun x => by by_cases hx : (x.id == us.id) = true <;> simp [hx])
      hus2
    simp only [findUserSkill]
    rw [hmap]
    simp

/-- Concrete skill states: sdb1 has the UserSkill row and no endorsement,
sdb2 is sdb1 after user 1 endorsed skill 5 of user 2. -/
def exUS1 : UserSkill := { id := 1, user_id := 2, skill_id := 5, endorsement_count := 0 }

def sdb1 : SkillDB := { user_skills := [exUS1], endorsements := [], next_endorsement_id := 1 }

def exEnd1 : SkillEndorsement := { id := 1, endorser_id := 1, endorsed_user_id := 2, skill_id := 5 }

def sdb2 : SkillDB :=
  { user_skills := [{ exUS1 with endorsement_count := 1 }]
    endorsements := [exEnd1], next_endorsement_id := 2 }

/-- C5 (witness): a duplicate endorsement on sdb2 is rejected unchanged and
a first endorsement on sdb1 succeeds. -/
theorem c5_endorsement_uniqueness_witness :
    endorse_skill sdb2 1 (some 2) (some 5) = (sdb2, 400, none) ∧
    ((endorse_skill sdb1 1 (some 2) (some 5)).2.1 = 201 ∧
      (endorse_skill sdb1 1 (some 2) (some 5)).1.endorsements =
        sdb1.endorsements ++
          [{ id := sdb1.next_endorsement_id, endorser_id := 1
             endorsed_user_id := 2, skill_id := 5 }] ∧
      findUserSkill (endorse_skill sdb1 1 (some 2) (some 5)).1 2 5 =
        some { exUS1 with endorsement_count := exUS1.endorsement_count + 1 } ∧
      (endorse_skill sdb1 1 (some 2) (some 5)).2.2 =
        some (exUS1.endorsement_count + 1)) :=
  ⟨c5_endorsement_uniqueness.1 sdb2 1 2 5 { exUS1 with endorsement_count := 1 } exEnd1
      (by decide) (by decide) (by decide) (by decide) (by decide),
    c5_endorsement_uniqueness.2 sdb1 1 2 5 exUS1
      (by decide) (by decide) (by decide) (by decide) (by decide)⟩

/-! ### More list helpers -/

/-- An element not matching the predicate survives eraseP. -/
theorem mem_eraseP_of_pred_false {α : Type} (p : α → Bool) (l : List α) (x : α)
    (hx : x ∈ l) (hpx : p x = false) : x ∈ l.eraseP p := by
  induction l with
  | nil => cases hx
  | cons a as ih =>
    cases hpa : p a with
    | true =>
      rw [List.eraseP_cons_of_pos hpa]
      cases List.mem_cons.mp hx with
      | inl h => subst h; rw [hpa] at hpx; cases hpx
      | inr h => exact h
    | false =>
      rw [List.eraseP_cons_of_neg (by simp [hpa])]
      cases List.mem_cons.mp hx with
      | inl h => subst h; exact List.mem_cons_self _ _
      | inr h => exact List.mem_cons_of_mem a (ih h)

/-- Mapping a function that preserves a projection does not change the
projected list. -/
theorem map_map_eq_of_comp_id {α β : Type} (f : α → α) (g : α → β) (l : List α)
    (h : ∀ x, g (f x) = g x) : (l.map f).map g = l.map g := by
  induction l with
  | nil => rfl
  | cons a as ih => simp only [List.map_cons, h a, ih]

/-! ### Branch characterizations of the community membership handlers -/

/-- The community row inserted by a successful create_community. -/
def createdCommunity (db : CommDB) (uid : Nat) (d : CommData) : Community :=
  { id := db.next_community_id
    name := d.name.getD ""
    description := d.description.getD ""
    category := d.category.getD ""
    image_url := d.image_url.getD ""
    is_private := d.is_private.getD false
    created_by := uid
    tags := d.tags.getD []
    rules := d.rules.getD ""
    member_count := 1
    post_count := 0
    activity_score := 0
    is_featured := false }

theorem create_community_201 (db : CommDB) (uid : Nat) (d : CommData)
    (h : (create_community db uid d).2.1 = 201) :
    strFalsy d.name = false ∧ strFalsy d.description = false ∧
    strFalsy d.category = false ∧
    db.communities.any (fun c => c.name == d.name.getD "") = false ∧
    ∃ u, findUser db uid = some u := by
  unfold create_community at h
  by_cases h1 : strFalsy d.name = true
  · rw [if_pos h1] at h
    exact absurd h (show (400 : Nat) ≠ 201 from by decide)
  · rw [if_neg h1] at h
    by_cases h2 : strFalsy d.description = true
    · rw [if_pos h2] at h
      exact absurd h (show (400 : Nat) ≠ 201 from by decide)
    · rw [if_neg h2] at h
      by_cases h3 : strFalsy d.category = true
      · rw [if_pos h3] at h
        exact absurd h (show (400 : Nat) ≠ 201 from by decide)
      · rw [if_neg h3] at h
        by_cases h4 : db.communities.any (fun c => c.name == d.name.getD "") = true
        · rw [if_pos h4] at h
          exact absurd h (show (400 : Nat) ≠ 201 from by decide)
        · rw [if_neg h4] at h
          cases hu : findUser db uid with
          | none =>
            rw [hu] at h
            exact absurd h (show (500 : Nat) ≠ 201 from by decide)
          | some u =>
            exact ⟨by simpa using h1, by simpa using h2, by simpa using h3,
              by simpa using h4, u, rfl⟩

theorem create_community_success (db : CommDB) (uid : Nat) (d : CommData) (u : User)
    (h1 : strFalsy d.name = false) (h2 : strFalsy d.description = false)
    (h3 : strFalsy d.category = false)
    (h4 : db.communities.any (fun c => c.name == d.name.getD "") = false)
    (hu : findUser db uid = some u) :
    create_community db uid d =
      ({ db with
          communities := db.communities ++ [createdCommunity db uid d]
          members := db.members ++ [(uid, db.next_community_id)]
          moderators := db.moderators ++ [(uid, db.next_community_id)]
          users := db.users.map (fun v =>
            if v.id == uid then
              { v with total_communities := some (pyOrInt v.total_communities 0 + 1) }
            else v)
          next_community_id := db.next_community_id + 1 },
        201, some (createdCommunity db uid d)) := by
  unfold create_community
  rw [if_neg (by simp [h1]), if_neg (by simp [h2]), if_neg (by simp [h3]),
    if_neg (by simp [h4])]
  simp only [hu]
  rfl

theorem join_community_200 (db : CommDB) (uid cid : Nat)
    (h : (join_community db uid cid).2 = 200) :
    ∃ c u, findComm db cid = some c ∧ isMemberPair db uid cid = false ∧
      c.is_private = false ∧ findUser db uid = some u := by
  unfold join_community at h
  cases hc : findComm db cid with
  | none =>
    rw [hc] at h
    exact absurd h (show (404 : Nat) ≠ 200 from by decide)
  | some c =>
    simp only [hc] at h
    by_cases hm : isMemberPair db uid cid = true
    · rw [if_pos hm] at h
      exact absurd h (show (400 : Nat) ≠ 200 from by decide)
    · rw [if_neg hm] at h
      by_cases hp : c.is_private = true
      · rw [if_pos hp] at h
        exact absurd h (show (403 : Nat) ≠ 200 from by decide)
      · rw [if_neg hp] at h
        cases hu : findUser db uid with
        | none =>
          rw [hu] at h
          exact absurd h (show (500 : Nat) ≠ 200 from by decide)
        | some u =>
          exact ⟨c, u, rfl, by simpa using hm, by simpa using hp, rfl⟩

theorem join_community_success (db : CommDB) (uid cid : Nat) (c : Community) (u : User)
    (hc : findComm db cid = some c) (hm : isMemberPair db uid cid = false)
    (hp : c.is_private = false) (hu : findUser db uid = some u) :
    join_community db uid cid =
      ({ db with
          members := db.members ++ [(uid, cid)]
          communities := db.communities.map (fun q =>
            if q.id == cid then
              { q with
                member_count :=
                  (((db.members ++ [(uid, cid)]).filter (fun m => m.2 == cid)).length : Int)
                activity_score := q.activity_score + 1 }
            else q)
          users := db.users.map (fun v =>
            if v.id == uid then
              { v with total_communities := some (pyOrInt v.total_communities 0 + 1) }
            else v) }, 200) := by
  unfold join_community
  simp only [hc]
  rw [if_neg (by simp [hm]), if_neg (by simp [hp])]
  simp only [hu]

theorem leave_community_200 (db : CommDB) (uid cid : Nat)
    (h : (leave_community db uid cid).2 = 200) :
    ∃ c, findComm db cid = some c ∧ isMemberPair db uid cid = true ∧
      c.created_by ≠ uid := by
  unfold leave_community at h
  cases hc : findComm db cid with
  | none =>
    rw [hc] at h
    exact absurd h (show (404 : Nat) ≠ 200 from by decide)
  | some c =>
    simp only [hc] at h
    by_cases hm : isMemberPair db uid cid = false
    · rw [if_pos hm] at h
      exact absurd h (show (400 : Nat) ≠ 200 from by decide)
    · rw [if_neg hm] at h
      by_cases hcr : c.created_by = uid
      · rw [if_pos hcr] at h
        exact absurd h (show (400 : Nat) ≠ 200 from by decide)
      · refine ⟨c, rfl, ?_, hcr⟩
        cases hval : isMemberPair db uid cid with
        | true => rfl
        | false => exact absurd hval hm

theorem leave_community_success (db : CommDB) (uid cid : Nat) (c : Community)
    (hc : findComm db cid = some c) (hm : isMemberPair db uid cid = true)
    (hcr : c.created_by ≠ uid) :
    leave_community db uid cid =
      ({ db with
          members := db.members.eraseP (fun m => m.1 == uid && m.2 == cid)
          communities := db.communities.map (fun q =>
            if q.id == cid then
              { q with
                member_count :=
                  (((db.members.eraseP (fun m => m.1 == uid && m.2 == cid)).filter
                    (fun m => m.2 == cid)).length : Int) }
            else q)
          moderators :=
            if db.moderators.any (fun m => m.1 == uid && m.2 == cid) then
              db.moderators.eraseP (fun m => m.1 == uid && m.2 == cid)
            else db.moderators
          users := db.users.map (fun v =>
            if v.id == uid then
              { v with total_communities := some (max 0 (pyOrInt v.total_communities 1 - 1)) }
            else v) }, 200) := by
  unfold leave_community
  simp only [hc]
  rw [if_neg (by simp [hm]), if_neg hcr]

/-! ### Claim C1: member_count stays consistent with the join table -/

/-- C1: create_community initializes member_count to 1 with the creator as
sole member (under fresh primary keys), and after every successful join or
leave the stored member_count of the community equals the length of its
membership join-table rows. -/
theorem c1_member_count_consistent :
    (∀ (db : CommDB) (uid : Nat) (d : CommData),
      (∀ m ∈ db.members, m.2 ≠ db.next_community_id) →
      (create_community db uid d).2.1 = 201 →
      ∃ c, (create_community db uid d).2.2 = some c ∧ c.member_count = 1 ∧
        membersOf (create_community db uid d).1 c.id = [(uid, c.id)]) ∧
    (∀ (db : CommDB) (uid cid : Nat),
      (join_community db uid cid).2 = 200 →
      ∀ c2, findComm (join_community db uid cid).1 cid = some c2 →
        c2.member_count = ((membersOf (join_community db uid cid).1 cid).length : Int)) ∧
    (∀ (db : CommDB) (uid cid : Nat),
      (leave_community db uid cid).2 = 200 →
      ∀ c2, findComm (leave_community db uid cid).1 cid = some c2 →
        c2.member_count = ((membersOf (leave_community db uid cid).1 cid).length : Int)) := by
  refine ⟨?_, ?_, ?_⟩
  · intro db uid d hfresh h
    obtain ⟨h1, h2, h3, h4, u, hu⟩ := create_community_201 db uid d h
    have heq := create_community_success db uid d u h1 h2 h3 h4 hu
    refine ⟨createdCommunity db uid d, by rw [heq], rfl, ?_⟩
    rw [heq]
    simp only [membersOf, createdCommunity]
    rw [List.filter_append]
    have hnil : db.members.filter (fun m => m.2 == db.next_community_id) = [] := by
      rw [List.filter_eq_nil_iff]
      intro a ha
      simpa using hfresh a ha
    rw [hnil]
    simp
  · intro db uid cid h c2 hc2
    obtain ⟨c, u, hc, hm, hp, hu⟩ := join_community_200 db uid cid h
    have heq := join_community_success db uid cid c u hc hm hp hu
    rw [heq] at hc2
    have hc3 : List.find? (fun x => x.id == cid) db.communities = some c := hc
    have hcid0 := List.find?_some hc3
    have hcid : (c.id == cid) = true := hcid0
    have hmap := find?_map_eq
      (fun q =>
        if q.id == cid then
          { q with
            member_count :=
              (((db.members ++ [(uid, cid)]).filter (fun m => m.2 == cid)).length : Int)
            activity_score := q.activity_score + 1 }
        else q)
      (fun q => q.id == cid) db.communities c
      (fun x => by by_cases hx : (x.id == cid) = true <;> simp [hx, hcid])
      hc3
    simp only [findComm] at hc2
    rw [hmap] at hc2
    cases hc2
    rw [heq]
    simp [hcid, membersOf]
  · intro db uid cid h c2 hc2
    obtain ⟨c, hc, hm, hcr⟩ := leave_community_200 db uid cid h
    have heq := leave_community_success db uid cid c hc hm hcr
    rw [heq] at hc2
    have hc3 : List.find? (fun x => x.id == cid) db.communities = some c := hc
    have hcid0 := List.find?_some hc3
    have hcid : (c.id == cid) = true := hcid0
    have hmap := find?_map_eq
      (fun q =>
        if q.id == cid then
          { q with
            member_count :=
              (((db.members.eraseP (fun m => m.1 == uid && m.2 == cid)).filter
                (fun m => m.2 == cid)).length : Int) }
        else q)
      (fun q => q.id == cid) db.communities c
      (fun x => by by_cases hx : (x.id == cid) = true <;> simp [hx, hcid])
      hc3
    simp only [findComm] at hc2
    rw [hmap] at hc2
    cases hc2
    rw [heq]
    simp [hcid, membersOf]

/-- Create-community request body for the witness. -/
def exCommData1 : CommData :=
  { name := some "c2", description := some "d2", category := some "x"
    image_url := none, is_private := none, tags := none, rules := none }

/-- cdb1 after user 2 joined community 1. -/
def cdb2 : CommDB :=
  { users := [mkUser 1 "alice", { mkUser 2 "bob" with total_communities := some 1 }]
    communities := [{ exComm1 with member_count := 2, activity_score := 1 }]
    members := [(1, 1), (2, 1)], moderators := [(1, 1)], next_community_id := 2 }

/-- C1 (witness): creating, joining and leaving on concrete states. -/
theorem c1_member_count_consistent_witness :
    (∃ c, (create_community cdb1 2 exCommData1).2.2 = some c ∧ c.member_count = 1 ∧
      membersOf (create_community cdb1 2 exCommData1).1 c.id = [(2, c.id)]) ∧
    ({ exComm1 with member_count := 2, activity_score := 1 } : Community).member_count =
      ((membersOf (join_community cdb1 2 1).1 1).length : Int) ∧
    ({ exComm1 with member_count := 1, activity_score := 1 } : Community).member_count =
      ((membersOf (leave_community cdb2 2 1).1 1).length : Int) :=
  ⟨c1_member_count_consistent.1 cdb1 2 exCommData1 (by decide) (by decide),
    c1_member_count_consistent.2.1 cdb1 2 1 (by decide)
      { exComm1 with member_count := 2, activity_score := 1 } (by decide),
    c1_member_count_consistent.2.2 cdb2 2 1 (by decide)
      { exComm1 with member_count := 1, activity_score := 1 } (by decide)⟩

/-! ### Invariant preservation machinery -/

theorem foldl_preserve {σ τ : Type} (step : τ → σ → σ) (P : σ → Prop)
    (hstep : ∀ s op, P s → P (step op s)) :
    ∀ (ops : List τ) (s : σ), P s → P (ops.foldl (fun s op => step op s) s) := by
  intro ops
  induction ops with
  | nil => intro s hs; exact hs
  | cons o os ih => intro s hs; exact ih _ (hstep s o hs)

/-- Every modelled community-blueprint request preserves well-formedness,
in particular that the creator of each community is in its membership
join table. -/
theorem commWF_mk (db : CommDB)
    (h1 : ∀ c ∈ db.communities, c.id < db.next_community_id)
    (h2 : (db.communities.map Community.id).Nodup)
    (h3 : ∀ c ∈ db.communities, (c.created_by, c.id) ∈ db.members) : CommWF db := by
  unfold CommWF
  exact ⟨h1, h2, h3⟩

theorem commWF_applyOp (op : CommOp) (db : CommDB) (h : CommWF db) :
    CommWF (applyCommOp op db) := by
  unfold CommWF at h
  obtain ⟨hb, hn, hcm⟩ := h
  cases op with
  | createC uid d =>
    show CommWF (create_community db uid d).1
    unfold create_community
    split
    · exact commWF_mk _ hb hn hcm
    · split
      · exact commWF_mk _ hb hn hcm
      · split
        · exact commWF_mk _ hb hn hcm
        · split
          · exact commWF_mk _ hb hn hcm
          · split
            · exact commWF_mk _ hb hn hcm
            · refine commWF_mk _ ?_ ?_ ?_
              · intro c2 hc2
                rcases List.mem_append.mp hc2 with h1 | h1
                · exact Nat.lt_succ_of_lt (hb c2 h1)
                · rw [List.mem_singleton.mp h1]
                  exact Nat.lt_succ_self _
              · rw [List.map_append, List.nodup_append]
                refine ⟨hn, List.nodup_singleton _, ?_⟩
                intro x hx hx2
                rcases List.mem_map.mp hx with ⟨q, hq, rfl⟩
                have h2 : q.id = db.next_community_id := by simpa using hx2
                have h3 := hb q hq
                omega
              · intro c2 hc2
                rcases List.mem_append.mp hc2 with h1 | h1
                · exact List.mem_append_left _ (hcm c2 h1)
                · rw [List.mem_singleton.mp h1]
                  exact List.mem_append_right _ (by simp)
  | join uid cid =>
    show CommWF (join_community db uid cid).1
    unfold join_community
    split
    · exact commWF_mk _ hb hn hcm
    · split
      · exact commWF_mk _ hb hn hcm
      · split
        · exact commWF_mk _ hb hn hcm
        · split
          · exact commWF_mk _ hb hn hcm
          · rename_i c hc u hu
            refine commWF_mk _ ?_ ?_ ?_
            · intro c2 hc2
              rcases List.mem_map.mp hc2 with ⟨q, hq, rfl⟩
              have hid : ∀ x : Community,
                  (if (x.id == cid) = true then
                    { x with
                      member_count :=
                        (((db.members ++ [(uid, cid)]).filter
                          (fun m => m.2 == cid)).length : Int)
                      activity_score := x.activity_score + 1 }
                  else x).id = x.id := by
                intro x
                by_cases hx : (x.id == cid) = true <;> simp [hx]
              rw [hid q]
              exact hb q hq
            · rw [map_map_eq_of_comp_id _ Community.id _ (by
                intro x
                by_cases hx : (x.id == cid) = true <;> simp [hx])]
              exact hn
            · intro c2 hc2
              rcases List.mem_map.mp hc2 with ⟨q, hq, rfl⟩
              by_cases hx : (q.id == cid) = true <;>
                simp only [hx, if_true, if_false, Bool.false_eq_true] <;>
                exact List.mem_append_left _ (hcm q hq)
  | leave uid cid =>
    show CommWF (leave_community db uid cid).1
    unfold leave_community
    split
    · exact commWF_mk _ hb hn hcm
    · split
      · exact commWF_mk _ hb hn hcm
      · split
        · exact commWF_mk _ hb hn hcm
        · rename_i c hc hm hcr
          have hc3 : List.find? (fun x => x.id == cid) db.communities = some c := hc
          have hcmem := List.mem_of_find?_eq_some hc3
          have hcid0 := List.find?_some hc3
          have hcid : c.id = cid := by simpa using hcid0
          refine commWF_mk _ ?_ ?_ ?_
          · intro c2 hc2
            rcases List.mem_map.mp hc2 with ⟨q, hq, rfl⟩
            by_cases hx : (q.id == cid) = true <;> simp only [hx, if_true, if_false,
              Bool.false_eq_true] <;> exact hb q hq
          · rw [map_map_eq_of_comp_id _ Community.id _ (by
              intro x
              by_cases hx : (x.id == cid) = true <;> simp [hx])]
            exact hn
          · intro c2 hc2
            rcases List.mem_map.mp hc2 with ⟨q, hq, rfl⟩
            have hqpair : ((q.created_by, q.id) : Nat × Nat) ∈ db.members := hcm q hq
            have hqcr : (if (q.id == cid) = true then
                { q with
                  member_count :=
                    (((db.members.eraseP (fun m => m.1 == uid && m.2 == cid)).filter
                      (fun m => m.2 == cid)).length : Int) }
              else q).created_by = q.created_by := by
              by_cases hx : (q.id == cid) = true <;> simp [hx]
            have hqid : (if (q.id == cid) = true then
                { q with
                  member_count :=
                    (((db.members.eraseP (fun m => m.1 == uid && m.2 == cid)).filter
                      (fun m => m.2 == cid)).length : Int) }
              else q).id = q.id := by
              by_cases hx : (q.id == cid) = true <;> simp [hx]
            rw [hqcr, hqid]
            apply mem_eraseP_of_pred_false _ _ _ hqpair
            by_cases hqc : (q.id == cid) = true
            · have hqc2 : q.id = cid := by simpa using hqc
              have hqeq : q = c :=
                List.inj_on_of_nodup_map hn hq hcmem (by rw [hqc2, hcid])
              have hne : q.created_by ≠ uid := by rw [hqeq]; exact hcr
              simp [hne]
            · simp [hqc]
  | deleteC uid cid =>
    show CommWF (delete_community db uid cid).1
    unfold delete_community
    split
    · exact commWF_mk _ hb hn hcm
    · split
      · exact commWF_mk _ hb hn hcm
      · refine commWF_mk _ ?_ ?_ ?_
        · intro c2 hc2
          exact hb c2 (List.mem_filter.mp hc2).1
        · exact List.Nodup.sublist (List.Sublist.map _ (List.filter_sublist _)) hn
        · intro c2 hc2
          have h2 := List.mem_filter.mp hc2
          exact List.mem_filter.mpr ⟨hcm c2 h2.1, h2.2⟩
  | updateU uid d =>
    show CommWF (update_user db uid d (Except.ok ())).1
    unfold update_user
    split
    · exact commWF_mk _ hb hn hcm
    · exact commWF_mk _ hb hn hcm
  | deleteU uid =>
    show CommWF (delete_user db uid).1
    unfold delete_user
    split
    · exact commWF_mk _ hb hn hcm
    · exact commWF_mk _ hb hn hcm

/-! ### Claim C8: the creator stays a member -/

/-- C8: community well-formedness, including that every community creator is
in the membership join table, is preserved by every sequence of modelled
community requests; a leave request by the community or project creator is
rejected with 400 leaving the state unchanged, and a member-removal request
aimed at the project creator is rejected with 400. -/
theorem c8_creator_remains_member :
    (∀ (ops : List CommOp) (db : CommDB), CommWF db → CommWF (runCommOps ops db)) ∧
    (∀ (db : CommDB) (uid cid : Nat) (c : Community),
      findComm db cid = some c → isMemberPair db uid cid = true → c.created_by = uid →
      leave_community db uid cid = (db, 400)) ∧
    (∀ (db : ProjDB) (uid pid : Nat) (proj : Project),
      findProj db pid = some proj → isProjMember db uid pid = true → proj.created_by = uid →
      leave_project db uid pid = (db, 400)) ∧
    (∀ (db : ProjDB) (cur pid : Nat) (proj : Project),
      findProj db pid = some proj →
      (proj.created_by = cur ∨
        db.roles.any (fun r => r.project_id == pid && r.user_id == cur && r.is_lead) = true) →
      remove_member db cur pid proj.created_by = (db, 400)) := by
  refine ⟨?_, ?_, ?_, ?_⟩
  · intro ops db h
    exact foldl_preserve applyCommOp CommWF (fun s o hs => commWF_applyOp o s hs) ops db h
  · intro db uid cid c hc hm hcr
    unfold leave_community
    simp only [hc]
    rw [if_neg (by simp [hm]), if_pos hcr]
  · intro db uid pid proj hp hm hcr
    unfold leave_project
    simp only [hp]
    rw [if_neg (by simp [hm]), if_pos hcr]
  · intro db cur pid proj hp hperm
    unfold remove_member
    simp only [hp]
    rw [if_neg ?_]
    · rw [if_pos trivial]
    · intro hcond
      cases hperm with
      | inl h2 => exact hcond.1 h2
      | inr h2 => rw [h2] at hcond; exact absurd hcond.2 (by decide)

/-- Concrete project state: project 1 created by user 1 with members 1, 2. -/
def exProj1 : Project := { id := 1, title := "p", created_by := 1, current_team_size := 2 }

def jdb1 : ProjDB :=
  { users := [mkUser 1 "alice", mkUser 2 "bob"], projects := [exProj1]
    proj_members := [(1, 1), (2, 1)], roles := [] }

/-- C8 (witness): the preserved invariant after a join, and the three 400
rejections on concrete states. -/
theorem c8_creator_remains_member_witness :
    CommWF (runCommOps [CommOp.join 2 1] cdb1) ∧
    leave_community cdb1 1 1 = (cdb1, 400) ∧
    leave_project jdb1 1 1 = (jdb1, 400) ∧
    remove_member jdb1 1 1 exProj1.created_by = (jdb1, 400) :=
  ⟨c8_creator_remains_member.1 [CommOp.join 2 1] cdb1 (by unfold CommWF; decide),
    c8_creator_remains_member.2.1 cdb1 1 1 exComm1 (by decide) (by decide) (by decide),
    c8_creator_remains_member.2.2.1 jdb1 1 1 exProj1 (by decide) (by decide) (by decide),
    c8_creator_remains_member.2.2.2 jdb1 1 1 exProj1 (by decide) (Or.inl (by decide))⟩

/-! ### Claim C9: counters never go negative -/

theorem pyOrInt_nonneg (t : Option Int) (d : Int) (hd : 0 ≤ d) (ht : 0 ≤ t.getD 0) :
    0 ≤ pyOrInt t d := by
  cases t with
  | none => simpa [pyOrInt] using hd
  | some v =>
    by_cases hv : v = 0
    · simpa [pyOrInt, hv] using hd
    · simpa [pyOrInt, hv] using ht

theorem postNonneg_applyOp (op : PostOp) (db : PostDB) (h : postCountersNonneg db) :
    postCountersNonneg (applyPostOp op db) := by
  unfold postCountersNonneg at h
  cases op with
  | create uid d now =>
    show postCountersNonneg (create_post db uid d now).1
    unfold create_post
    split
    · exact h
    · intro p hp
      rcases List.mem_append.mp hp with h1 | h1
      · exact h p h1
      · rw [List.mem_singleton.mp h1]
  | update uid pid d =>
    show postCountersNonneg (update_post db uid pid d).1
    unfold update_post
    split
    · exact h
    · split
      · exact h
      · rename_i p hp2 hown
        have hp3 : List.find? (fun x => x.id == pid) db.posts = some p := hp2
        intro q hq
        rcases List.mem_map.mp hq with ⟨w, hw, rfl⟩
        by_cases hx : (w.id == pid) = true
        · rw [if_pos hx]
          exact h p (List.mem_of_find?_eq_some hp3)
        · rw [if_neg hx]
          exact h w hw
  | del uid pid =>
    show postCountersNonneg (delete_post db uid pid).1
    unfold delete_post
    split
    · exact h
    · split
      · exact h
      · intro q hq
        exact h q (List.mem_filter.mp hq).1
  | like uid pid =>
    show postCountersNonneg (like_post db uid pid).1
    unfold like_post
    split
    · exact h
    · split
      · rename_i x1 p hp2 x2 l hl2
        intro q hq
        rcases List.mem_map.mp hq with ⟨w, hw, rfl⟩
        by_cases hx : (w.id == pid) = true
        · rw [if_pos hx]
          exact le_max_left 0 _
        · rw [if_neg hx]
          exact h w hw
      · rename_i x1 p hp2 x2 hl2
        have hp3 : List.find? (fun x => x.id == pid) db.posts = some p := hp2
        have hpn := h p (List.mem_of_find?_eq_some hp3)
        intro q hq
        rcases List.mem_map.mp hq with ⟨w, hw, rfl⟩
        by_cases hx : (w.id == pid) = true
        · rw [if_pos hx]
          show 0 ≤ p.likes_count + 1
          omega
        · rw [if_neg hx]
          exact h w hw

theorem skillNonneg_applyOp (op : SkillOp) (db : SkillDB) (h : skillCountersNonneg db) :
    skillCountersNonneg (applySkillOp op db) := by
  unfold skillCountersNonneg at h
  cases op with
  | endorse uid e s =>
    show skillCountersNonneg (endorse_skill db uid e s).1
    unfold endorse_skill
    split
    · exact h
    · split
      · exact h
      · split
        · exact h
        · split
          · exact h
          · rename_i x1 us hus x2 hex
            have hus3 : List.find? (fun x => x.user_id == e.getD 0 && x.skill_id == s.getD 0)
                db.user_skills = some us := hus
            intro u2 hu2
            rcases List.mem_map.mp hu2 with ⟨w, hw, rfl⟩
            by_cases hx : (w.id == us.id) = true
            · rw [if_pos hx]
              have hwn := h w hw
              show 0 ≤ w.endorsement_count + 1
              omega
            · rw [if_neg hx]
              exact h w hw
  | removeE uid eid =>
    show skillCountersNonneg (remove_endorsement db uid eid).1
    unfold remove_endorsement
    split
    · exact h
    · split
      · exact h
      · split
        · exact h
        · rename_i x1 ex hex hne x2 us hus
          intro u2 hu2
          rcases List.mem_map.mp hu2 with ⟨w, hw, rfl⟩
          by_cases hx : (w.id == us.id) = true
          · rw [if_pos hx]
            exact le_max_left 0 _
          · rw [if_neg hx]
            exact h w hw

theorem commNonneg_applyOp (op : CommOp) (db : CommDB) (h : commCountersNonneg db) :
    commCountersNonneg (applyCommOp op db) := by
  unfold commCountersNonneg at h
  cases op with
  | createC uid d =>
    show commCountersNonneg (create_community db uid d).1
    unfold create_community
    split
    · exact h
    · split
      · exact h
      · split
        · exact h
        · split
          · exact h
          · split
            · exact h
            · intro v hv
              rcases List.mem_map.mp hv with ⟨w, hw, rfl⟩
              by_cases hx : (w.id == uid) = true
              · rw [if_pos hx]
                have h1 := pyOrInt_nonneg w.total_communities 0 (le_refl 0) (h w hw)
                show 0 ≤ pyOrInt w.total_communities 0 + 1
                omega
              · rw [if_neg hx]
                exact h w hw
  | join uid cid =>
    show commCountersNonneg (join_community db uid cid).1
    unfold join_community
    split
    · exact h
    · split
      · exact h
      · split
        · exact h
        · split
          · exact h
          · intro v hv
            rcases List.mem_map.mp hv with ⟨w, hw, rfl⟩
            by_cases hx : (w.id == uid) = true
            · rw [if_pos hx]
              have h1 := pyOrInt_nonneg w.total_communities 0 (le_refl 0) (h w hw)
              show 0 ≤ pyOrInt w.total_communities 0 + 1
              omega
            · rw [if_neg hx]
              exact h w hw
  | leave uid cid =>
    show commCountersNonneg (leave_community db uid cid).1
    unfold leave_community
    split
    · exact h
    · split
      · exact h
      · split
        · exact h
        · intro v hv
          rcases List.mem_map.mp hv with ⟨w, hw, rfl⟩
          by_cases hx : (w.id == uid) = true
          · rw [if_pos hx]
            exact le_max_left 0 _
          · rw [if_neg hx]
            exact h w hw
  | deleteC uid cid =>
    show commCountersNonneg (delete_community db uid cid).1
    unfold delete_community
    split
    · exact h
    · split
      · exact h
      · intro v hv
        rcases List.mem_map.mp hv with ⟨w, hw, rfl⟩
        by_cases hx : isMemberPair db w.id cid = true
        · rw [if_pos hx]
          exact le_max_left 0 _
        · rw [if_neg hx]
          exact h w hw
  | updateU uid d =>
    show commCountersNonneg (update_user db uid d (Except.ok ())).1
    unfold update_user
    split
    · exact h
    · rename_i u hu
      have hu3 : List.find? (fun x => x.id == uid) db.users = some u := hu
      intro v hv
      rcases List.mem_map.mp hv with ⟨w, hw, rfl⟩
      by_cases hx : (w.id == uid) = true
      · rw [if_pos hx]
        exact h u (List.mem_of_find?_eq_some hu3)
      · rw [if_neg hx]
        exact h w hw
  | deleteU uid =>
    show commCountersNonneg (delete_user db uid).1
    unfold delete_user
    split
    · exact h
    · intro v hv
      rcases List.mem_map.mp hv with ⟨w, hw, rfl⟩
      by_cases hx : (w.id == uid) = true
      · rw [if_pos hx]
        exact h w hw
      · rw [if_neg hx]
        exact h w hw

/-- C9: under any sequence of modelled requests, the clamped decrements keep
likes_count, endorsement_count and total_communities nonnegative. -/
theorem c9_counters_nonneg :
    (∀ (ops : List PostOp) (db : PostDB), postCountersNonneg db →
      postCountersNonneg (runPostOps ops db)) ∧
    (∀ (ops : List SkillOp) (db : SkillDB), skillCountersNonneg db →
      skillCountersNonneg (runSkillOps ops db)) ∧
    (∀ (ops : List CommOp) (db : CommDB), commCountersNonneg db →
      commCountersNonneg (runCommOps ops db)) := by
  refine ⟨?_, ?_, ?_⟩
  · intro ops db h
    exact foldl_preserve applyPostOp postCountersNonneg
      (fun s o hs => postNonneg_applyOp o s hs) ops db h
  · intro ops db h
    exact foldl_preserve applySkillOp skillCountersNonneg
      (fun s o hs => skillNonneg_applyOp o s hs) ops db h
  · intro ops db h
    exact foldl_preserve applyCommOp commCountersNonneg
      (fun s o hs => commNonneg_applyOp o s hs) ops db h

/-- C9 (witness): concrete operation sequences ending in clamped decrements. -/
theorem c9_counters_nonneg_witness :
    postCountersNonneg (runPostOps [PostOp.like 2 1, PostOp.like 2 1] pdb1) ∧
    skillCountersNonneg (runSkillOps [SkillOp.removeE 1 1] sdb2) ∧
    commCountersNonneg (runCommOps [CommOp.join 2 1, CommOp.leave 2 1] cdb1) :=
  ⟨c9_counters_nonneg.1 [PostOp.like 2 1, PostOp.like 2 1] pdb1
      (by unfold postCountersNonneg; decide),
    c9_counters_nonneg.2.1 [SkillOp.removeE 1 1] sdb2
      (by unfold skillCountersNonneg; decide),
    c9_counters_nonneg.2.2 [CommOp.join 2 1, CommOp.leave 2 1] cdb1
      (by unfold commCountersNonneg; decide)⟩

end SC
